import Mathlib

/-!
Verification of the BIT* (Batch Informed Trees) planner core,
`src/ompl/geometric/planners/bitstar/src/BITstar.cpp`, against its
natural-language specification.

The shallow embedding models `ompl::base::Cost` (a wrapped double) as a
rational number extended with a top element for the IEEE `+infinity` used by
`infiniteCost()`.  State-space points are an abstract type `S`; the external
collaborators (state space, optimization objective, sampler) are records of
functions.  The `Vertex` and `IntegratedQueue` classes live in files outside
the repository snapshot; their planner-visible effects are modelled from the
spec and are marked as such where they occur.
-/

namespace BITstarProof

/-- `ompl::base::Cost` holds a double; costs in use are finite reals or the
IEEE positive infinity returned by `infiniteCost()`.  We model them as
rationals with a top element. -/
abbrev Cost : Type := WithTop ℚ

/-- `BITstar::isCostBetterThan` (BITstar.cpp:1205): `a.value() < b.value()`.
On doubles, `inf < inf` is false and `x < inf` is true for finite `x`,
exactly the order of `WithTop ℚ`. -/
def isCostBetterThan (a b : Cost) : Bool := decide (a < b)

/-- The optimization objective, an external collaborator
(`ompl::base::OptimizationObjective`): motion cost, admissible heuristic,
cost algebra, infinite cost and satisfaction test. -/
structure OptimizationObjective (S : Type) where
  motionCost : S → S → Cost
  motionCostHeuristic : S → S → Cost
  combineCosts : Cost → Cost → Cost
  infiniteCost : Cost
  isSatisfied : Cost → Bool

/-- The three-argument `combineCosts` overload of OMPL:
`combineCosts(a, b, c) = combineCosts(combineCosts(a, b), c)`. -/
def combine3 {S : Type} (opt : OptimizationObjective S) (a b c : Cost) : Cost :=
  opt.combineCosts (opt.combineCosts a b) c

/-- The state space and validity primitives, an external collaborator
(`ompl::base::SpaceInformation`). -/
structure SpaceInformation (S : Type) where
  distance : S → S → ℚ
  checkMotion : S → S → Bool
  spaceMeasure : ℚ

/-- The default `PathLengthOptimizationObjective`: motion cost and heuristic
are the state-space distance, costs combine by addition, infinite cost is
the IEEE infinity. -/
def pathLengthObjective {S : Type} (si : SpaceInformation S) :
    OptimizationObjective S where
  motionCost a b := ((si.distance a b : ℚ) : Cost)
  motionCostHeuristic a b := ((si.distance a b : ℚ) : Cost)
  combineCosts a b := a + b
  infiniteCost := ⊤
  isSatisfied c := decide (c ≤ (0 : ℚ))

/-- `BITstar::isFinite` (BITstar.cpp:1252): a cost is finite when it is
better than the objective's infinite cost. -/
def isFinite {S : Type} (opt : OptimizationObjective S) (c : Cost) : Bool :=
  isCostBetterThan c opt.infiniteCost

/-- `BITstar::costToComeHeuristic` (BITstar.cpp:1169): `g_hat(v)`, the
admissible cost-to-come from the start state. -/
def costToComeHeuristic {S : Type} (opt : OptimizationObjective S)
    (startState s : S) : Cost :=
  opt.motionCostHeuristic startState s

/-- `BITstar::costToGoHeuristic` (BITstar.cpp:1183): `h_hat(v)`, the
admissible cost-to-go to the goal state. -/
def costToGoHeuristic {S : Type} (opt : OptimizationObjective S)
    (goalState s : S) : Cost :=
  opt.motionCostHeuristic s goalState

/-- `BITstar::edgeCostHeuristic` (BITstar.cpp:1176): `c_hat(u, v)`, the
admissible edge cost. -/
def edgeCostHeuristic {S : Type} (opt : OptimizationObjective S)
    (u v : S) : Cost :=
  opt.motionCostHeuristic u v

/-- `BITstar::trueEdgeCost` (BITstar.cpp:1190): the true edge cost is
`Cost(si_->distance(u, v))` — the state-space distance, with no reference to
the optimization objective. -/
def trueEdgeCost {S : Type} (si : SpaceInformation S) (u v : S) : Cost :=
  ((si.distance u v : ℚ) : Cost)

/-! ## Nearest-neighbour distance (C10) -/

/-- The slice of `Vertex` needed by `BITstar::nnDistance`: the state pointer,
which may be unallocated (`none` models a null `ompl::base::State*`). -/
structure VertexState (S : Type) where
  state : Option S

/-- `BITstar::nnDistance` (BITstar.cpp:1118): checks `a`'s state first, then
`b`'s, throwing on an unallocated state; otherwise returns
`si_->distance(b->state(), a->state())` — arguments reversed. -/
def nnDistance {S : Type} (dist : S → S → ℚ) (a b : VertexState S) :
    Except String ℚ :=
  match a.state with
  | none => .error "a state is unallocated"
  | some sa =>
    match b.state with
    | none => .error "b state is unallocated"
    | some sb => .ok (dist sb sa)

/-- In `BITstar::setup` (BITstar.cpp:207) the sample-pool index
`freeStateNN_` has `nnDistance` installed as its distance function. -/
def freeStateNNDistance {S : Type} (dist : S → S → ℚ) :
    VertexState S → VertexState S → Except String ℚ :=
  nnDistance dist

/-- In `BITstar::setup` (BITstar.cpp:208) the tree index `vertexNN_` has
`nnDistance` installed as its distance function. -/
def vertexNNDistance {S : Type} (dist : S → S → ℚ) :
    VertexState S → VertexState S → Except String ℚ :=
  nnDistance dist

/-! ## Adding a vertex to the tree (C6) -/

/-- The slice of `Vertex` read by `BITstar::addVertex`: identity, parent
link and root flag (`hasParent()` / `isRoot()`). -/
structure VertexLink where
  id : ℕ
  hasParent : Bool
  isRoot : Bool

/-- The planner containers that `BITstar::addVertex` touches: the sample
pool index, the tree index, the integrated queue's vertex queue and the
vertex counter. -/
structure VertexContainers where
  freeStates : List ℕ
  vertices : List ℕ
  queueVertices : List ℕ
  numVertices : ℕ

/-- `BITstar::addVertex` (BITstar.cpp:1086): throws — before any mutation —
when the vertex has neither a parent nor the root flag; otherwise
optionally removes the vertex from the sample pool, adds it to the tree
index, optionally inserts it into the vertex queue, and increments the
counter.  The result pairs the containers after the call (the originals
when the exception fires) with the thrown exception, if any. -/
def addVertex (g : VertexContainers) (v : VertexLink)
    (removeFromFree updateExpansionQueue : Bool) :
    VertexContainers × Option String :=
  if v.hasParent = false ∧ v.isRoot = false then
    (g, some "Vertices must be connected to the graph before adding")
  else
    ({ freeStates := if removeFromFree then g.freeStates.erase v.id
                     else g.freeStates
       vertices := g.vertices ++ [v.id]
       queueVertices := if updateExpansionQueue then g.queueVertices ++ [v.id]
                        else g.queueVertices
       numVertices := g.numVertices + 1 }, none)

/-! ## RGG radius and k-nearest terms (C5) -/

/-- `BITstar::minimumRggR` (BITstar.cpp:1382): the RRG radius constant
`eta * 2 * ((1 + 1/d) * (mu / zeta))^(1/d)`, with `eta` the rewire factor,
`mu` the sampler's informed measure and `zeta` the unit-d-ball measure. -/
noncomputable def minimumRggR (eta : ℝ) (d : ℕ) (mu zeta : ℝ) : ℝ :=
  eta * 2 * ((1 + 1 / (d : ℝ)) * (mu / zeta)) ^ ((1 : ℝ) / (d : ℝ))

/-- `BITstar::minimumRggK` (BITstar.cpp:1396): the k-RGG constant
`eta * (e + e/d)`; stored as `k_rgg_`. -/
noncomputable def minimumRggK (eta : ℝ) (d : ℕ) : ℝ :=
  eta * (Real.exp 1 + Real.exp 1 / (d : ℝ))

/-- `BITstar::r` (BITstar.cpp:1360): the connection radius
`minimumRggR() * (log(N)/N)^(1/d)`. -/
noncomputable def rggR (eta : ℝ) (d : ℕ) (mu zeta : ℝ) (N : ℕ) : ℝ :=
  minimumRggR eta d mu zeta * (Real.log N / (N : ℝ)) ^ ((1 : ℝ) / (d : ℝ))

/-- `BITstar::k` (BITstar.cpp:1374): the neighbour count
`ceil(k_rgg_ * log(N))`, cast to an unsigned integer. -/
noncomputable def rggK (eta : ℝ) (d : ℕ) (N : ℕ) : ℕ :=
  ⌈minimumRggK eta d * Real.log N⌉₊

/-! ## clear() (C8) -/

/-- The member variables of the `BITstar` planner object, in the order of the
constructor initializer list (BITstar.cpp:72), plus the base-class `setup_`
flag.  Smart pointers are modelled as `Option` values (`none` = null); the
nearest-neighbour indices and the queue carry their contents. -/
structure PlannerMembers where
  sampler : Option Unit
  opt : Option Unit
  startVertex : Option Unit
  goalVertex : Option Unit
  freeStateNN : Option (List ℕ)
  vertexNN : Option (List ℕ)
  intQueue : Option (List (ℕ × ℕ))
  sampleDensity : ℚ
  r : ℚ
  kRgg : ℚ
  k : ℕ
  bestCost : Cost
  prunedCost : Cost
  minCost : Cost
  costSampled : Cost
  hasSolution : Bool
  approximateSoln : Bool
  approximateDiff : ℚ
  numIterations : ℕ
  numBatches : ℕ
  numPrunings : ℕ
  numSamples : ℕ
  numVertices : ℕ
  numFreeStatesPruned : ℕ
  numVerticesDisconnected : ℕ
  numRewirings : ℕ
  numStateCollisionChecks : ℕ
  numEdgeCollisionChecks : ℕ
  numNearestNeighbours : ℕ
  useStrictQueueOrdering : Bool
  rewireFactor : ℚ
  samplesPerBatch : ℕ
  useFailureTracking : Bool
  useKNearest : Bool
  usePruning : Bool
  pruneFraction : ℚ
  stopOnSolnChange : Bool
  setupFlag : Bool

/-- `BITstar::clear` (BITstar.cpp:257): resets the convenience pointers, the
two nearest-neighbour structures and the queue, zeroes the calculated terms
and counters, restores the costs to their pre-setup values, and clears the
setup flag; the eight configuration parameters are deliberately not reset
(BITstar.cpp:290). -/
def clear (p : PlannerMembers) : PlannerMembers :=
  { p with
    sampler := none
    opt := none
    startVertex := none
    goalVertex := none
    freeStateNN := none
    vertexNN := none
    intQueue := none
    sampleDensity := 0
    r := 0
    kRgg := 0
    k := 0
    bestCost := ⊤
    prunedCost := ⊤
    minCost := ((0 : ℚ) : Cost)
    costSampled := ((0 : ℚ) : Cost)
    hasSolution := false
    approximateSoln := false
    approximateDiff := -1
    numIterations := 0
    numSamples := 0
    numVertices := 0
    numFreeStatesPruned := 0
    numVerticesDisconnected := 0
    numStateCollisionChecks := 0
    numEdgeCollisionChecks := 0
    numNearestNeighbours := 0
    numRewirings := 0
    numBatches := 0
    numPrunings := 0
    setupFlag := false }

/-! ## Peeking at the edge queue (C9) -/

/-- An entry of the integrated queue's edge queue: the edge's two states and
the cached lexicographic sort key.  Modelled from the spec: the
`IntegratedQueue` class is outside the repository snapshot; §4.4 specifies
the edge queue as entries carrying the edge pair and a pair-of-costs key. -/
structure QueueEntry (S : Type) where
  srcState : S
  tgtState : S
  sortKey : Cost × Cost

/-- `BITstar::getNextEdgeInQueue` (BITstar.cpp:557): after a forced resort
when strict queue ordering is on, returns the front edge's states, or a
`(NULL, NULL)` pair when the queue is empty.  The resort is supplied as a
function because `IntegratedQueue::resort` is outside the snapshot. -/
def getNextEdgeInQueue {S : Type} (useStrictQueueOrdering : Bool)
    (resortFn : List (QueueEntry S) → List (QueueEntry S))
    (q : List (QueueEntry S)) : Option S × Option S :=
  let q' := if useStrictQueueOrdering then resortFn q else q
  match q' with
  | [] => (none, none)
  | e :: _ => (some e.srcState, some e.tgtState)

/-- `BITstar::getNextEdgeValueInQueue` (BITstar.cpp:586): after a forced
resort when strict queue ordering is on, returns the first component of the
front edge's sort key, or the objective's infinite cost when the queue is
empty. -/
def getNextEdgeValueInQueue {S : Type} (opt : OptimizationObjective S)
    (useStrictQueueOrdering : Bool)
    (resortFn : List (QueueEntry S) → List (QueueEntry S))
    (q : List (QueueEntry S)) : Cost :=
  let q' := if useStrictQueueOrdering then resortFn q else q
  match q' with
  | [] => opt.infiniteCost
  | e :: _ => e.sortKey.1

/-! ## The solve loop (C1, C2, C3, C4, C7)

The loop in `BITstar::solve` (BITstar.cpp:333) reads the tree and the
integrated queue only through a handful of calls: popping the front edge
(which carries the two vertices, whose current tree costs and states the
loop then reads), `isEmpty`, `isSorted`, `finish`, `reset`, `resort`,
`prune`, `pruneEdgesTo`, `setThreshold`, `markVertexUnsorted`, and the
parent/child updates of `addEdge`.  `Vertex` and `IntegratedQueue` are
implemented outside the repository snapshot, so those reads are modelled
from the spec: the edge queue is a list of snapshots, and the results of the
queue's internal recomputations (resort, batch refill, the goal's tree cost
after a cascading cost update) are supplied by per-iteration oracles. -/

/-- A popped edge as the loop reads it: vertex identities, states, the
source's and target's current tree costs (`getCost()`), and whether the
target is already in the tree (`isConnected()`). -/
structure QueueEdge (S : Type) where
  src : ℕ
  tgt : ℕ
  srcState : S
  tgtState : S
  srcCost : Cost
  tgtCost : Cost
  tgtConnected : Bool
deriving DecidableEq

/-- The planner state read and written by the solve loop. -/
structure PlannerState (S : Type) where
  -- the eight configuration parameters
  useStrictQueueOrdering : Bool
  rewireFactor : ℚ
  samplesPerBatch : ℕ
  useFailureTracking : Bool
  useKNearest : Bool
  usePruning : Bool
  pruneFraction : ℚ
  stopOnSolnChange : Bool
  -- costs
  bestCost : Cost
  prunedCost : Cost
  minCost : Cost
  costSampled : Cost
  -- the goal vertex's current tree cost, `goalVertex_->getCost()`
  goalCost : Cost
  -- the integrated queue's threshold, set by `setThreshold`
  queueThreshold : Cost
  -- flags
  hasSolution : Bool
  approximateSoln : Bool
  approximateDiff : ℚ
  stopLoop : Bool
  -- the edge queue and its outstanding unsorted marks (spec §4.4)
  queueEdges : List (QueueEdge S)
  queueUnsorted : Bool
  -- `failed_children` memory, recorded as (source id, target id) pairs
  failedChildren : List (ℕ × ℕ)
  sampleDensity : ℚ
  -- counters
  numIterations : ℕ
  numBatches : ℕ
  numPrunings : ℕ
  numSamples : ℕ
  numVertices : ℕ
  numFreeStatesPruned : ℕ
  numVerticesDisconnected : ℕ
  numRewirings : ℕ
  numStateCollisionChecks : ℕ
  numEdgeCollisionChecks : ℕ
  numNearestNeighbours : ℕ
deriving DecidableEq

/-- The sampler readings and sweep results consumed by `BITstar::prune`.
Modelled from the spec: the informed sampler and the queue's
`prune(vertexNN, freeStateNN)` sweep are outside the snapshot; the sweep
returns the pair (vertices disconnected, samples pruned), and
`pruneSamples()` drops `samplesDropped` states whose heuristic exceeds the
best cost.  A disconnected subtree can contain the goal, so the goal's tree
cost after the sweep is part of the oracle. -/
structure PruneOracle where
  hasInformedMeasure : Bool
  informedMeasure : ℚ
  numPruned : ℕ × ℕ
  samplesDropped : ℕ
  goalCostAfterPrune : Cost

/-- The external-call results consumed by one iteration of the solve loop.
Modelled from the spec: `IntegratedQueue::resort` recomputes stale keys and
prunes (returning counts, new queue contents and the possibly changed goal
cost); a new batch lazily refills the edge queue by expansion;
`Vertex::addParent` cascades costs through the target's subtree, yielding a
new goal cost; `pruneEdgesTo` filters the queued edges into the target. -/
structure IterOracle (S : Type) where
  resortNumPruned : ℕ × ℕ
  resortQueue : List (QueueEdge S)
  resortGoalCost : Cost
  batchPrune : PruneOracle
  batchQueue : List (QueueEdge S)
  batchNearestCalls : ℕ
  goalCostAfterAdd : Cost
  queueAfterEdgePrune : List (QueueEdge S)

/-- Absolute value on costs: `std::abs` maps both IEEE infinities to
positive infinity. -/
def costAbs : Cost → Cost
  | ⊤ => ⊤
  | (q : ℚ) => ((|q| : ℚ) : Cost)

/-- `BITstar::fractionalChange` (BITstar.cpp:1274): infinity when the old
cost is not finite, else `(new - old)/old`.  A `⊤` new cost over a finite
old cost corresponds to an IEEE infinity whose sign (the doubles give
`-inf` for a negative old cost) is erased by our one-point infinity; the
only in-planner consumer takes the absolute value, which identifies the
two signs. -/
def fractionalChange {S : Type} (opt : OptimizationObjective S)
    (newCost oldCost : Cost) : Cost :=
  if isFinite opt oldCost = false then ⊤
  else
    match newCost, oldCost with
    | ⊤, _ => ⊤
    | (n : ℚ), (o : ℚ) => (((n - o) / o : ℚ) : Cost)
    | (_ : ℚ), ⊤ => ⊤  -- unreachable: a ⊤ old cost is never finite

/-- `BITstar::resort` (BITstar.cpp:915) together with
`IntegratedQueue::resort`.  Modelled from the spec (§4.4): when no unsorted
marks are outstanding the queue returns `(0, 0)` and changes nothing;
otherwise keys are recomputed, vertices/samples may be pruned (counts added
to the planner counters), and the queue contents and the goal's tree cost
may change. -/
def resortStep {S : Type} (st : PlannerState S) (o : IterOracle S) :
    PlannerState S :=
  if st.queueUnsorted then
    { st with
      queueUnsorted := false
      queueEdges := o.resortQueue
      goalCost := o.resortGoalCost
      numVerticesDisconnected := st.numVerticesDisconnected + o.resortNumPruned.1
      numFreeStatesPruned := st.numFreeStatesPruned + o.resortNumPruned.2 }
  else st

/-- `BITstar::prune` (BITstar.cpp:872): when pruning is enabled, a solution
exists, and `abs(fractionalChange(bestCost, prunedCost))` exceeds the prune
fraction, and the informed measure (when available) is strictly smaller
than the space measure, perform the sweep: bump the pruning counter, drop
samples (`pruneSamples`, BITstar.cpp:980, each via `dropSample`,
BITstar.cpp:1016), prune the graph via the queue, add the returned counts,
and record `prunedCost := bestCost`.  Otherwise nothing changes. -/
def pruneStep {S : Type} (si : SpaceInformation S)
    (opt : OptimizationObjective S) (st : PlannerState S) (o : PruneOracle) :
    PlannerState S :=
  if st.usePruning ∧ st.hasSolution ∧
      (st.pruneFraction : Cost) < costAbs (fractionalChange opt st.bestCost st.prunedCost) then
    if (o.hasInformedMeasure ∧ o.informedMeasure < si.spaceMeasure) ∨
        o.hasInformedMeasure = false then
      { st with
        numPrunings := st.numPrunings + 1
        numFreeStatesPruned :=
          st.numFreeStatesPruned + o.samplesDropped + o.numPruned.2
        numVerticesDisconnected := st.numVerticesDisconnected + o.numPruned.1
        goalCost := o.goalCostAfterPrune
        prunedCost := st.bestCost }
    else st
  else st

/-- `BITstar::updateSamples` (BITstar.cpp:761), triggered by the first
neighbour query after a batch starts: when `costSampled < bestCost`, draw
`samplesPerBatch` states (each counted as one state collision check and one
generated sample) and mark the cost space fully sampled
(`costSampled := infiniteCost`). -/
def lazySampling {S : Type} (opt : OptimizationObjective S)
    (st : PlannerState S) : PlannerState S :=
  if isCostBetterThan st.costSampled st.bestCost then
    { st with
      numSamples := st.numSamples + st.samplesPerBatch
      numStateCollisionChecks := st.numStateCollisionChecks + st.samplesPerBatch
      costSampled := opt.infiniteCost }
  else st

/-- `BITstar::newBatch` (BITstar.cpp:729): bump the batch counter, set
`costSampled := minCost`, reset the queue, prune, recompute the sampling
density, then (lazily, on the first pop's expansion) sample and let the
queue's expansion produce the new edge queue; the expansion's
nearest-neighbour calls are counted. -/
def newBatchStep {S : Type} (si : SpaceInformation S)
    (opt : OptimizationObjective S) (st : PlannerState S) (o : IterOracle S) :
    PlannerState S :=
  let st1 := { st with
    numBatches := st.numBatches + 1
    costSampled := st.minCost
    queueEdges := ([] : List (QueueEdge S)) }
  let st2 := pruneStep si opt st1 o.batchPrune
  let st3 := { st2 with
    sampleDensity := (st2.samplesPerBatch : ℚ) / o.batchPrune.informedMeasure }
  let st4 := lazySampling opt st3
  { st4 with
    queueEdges := o.batchQueue
    numNearestNeighbours := st4.numNearestNeighbours + o.batchNearestCalls }

/-- `BITstar::addEdge` (BITstar.cpp:1027): a connected target is rewired via
`replaceParent` (BITstar.cpp:1052) — rewiring counter, cascading cost
update, and the subtree marked unsorted in the queue; a disconnected target
is attached and added to the tree via `addVertex(target, true, true)` —
vertex counter and vertex queue.  The cascade's effect on the goal's tree
cost is oracle-supplied. -/
def addEdgeStep {S : Type} (st : PlannerState S) (e : QueueEdge S)
    (o : IterOracle S) : PlannerState S :=
  if e.tgtConnected then
    { st with
      numRewirings := st.numRewirings + 1
      queueUnsorted := true
      goalCost := o.goalCostAfterAdd }
  else
    { st with
      numVertices := st.numVertices + 1
      goalCost := o.goalCostAfterAdd }

/-- How one iteration of the solve loop disposed of the popped edge
(instrumentation only; carries no information back into the state). -/
inductive EdgeOutcome : Type
  /-- gate A failed and the queue had outstanding unsorted marks: resort -/
  | dismissedResort : EdgeOutcome
  /-- gate A failed on a perfectly sorted queue: the batch is exhausted,
  `finish()` clears the queue -/
  | dismissedFinish : EdgeOutcome
  /-- gate B failed: the true edge cost can never help -/
  | discardedHeuristic : EdgeOutcome
  /-- the motion check found a collision -/
  | discardedCollision : EdgeOutcome
  /-- the edge does not improve the tree at its target -/
  | notImproving : EdgeOutcome
  /-- the edge was added; the flag records whether the solution improved -/
  | added (improvedSolution : Bool) : EdgeOutcome
  /-- the queue was empty even after the new batch -/
  | emptyQueue : EdgeOutcome
deriving DecidableEq

/-- An edge was "processed further" (true-cost computation onwards,
BITstar.cpp:374) exactly in the outcomes below gate A's true branch. -/
def EdgeOutcome.processed : EdgeOutcome → Bool
  | .discardedHeuristic => true
  | .discardedCollision => true
  | .notImproving => true
  | .added _ => true
  | _ => false

/-- The head of one iteration (BITstar.cpp:350): count the iteration,
resort when strict queue ordering is on, and start a new batch when the
edge queue is empty. -/
def iterationHead {S : Type} (si : SpaceInformation S)
    (opt : OptimizationObjective S) (st : PlannerState S) (o : IterOracle S) :
    PlannerState S :=
  let st1 := { st with numIterations := st.numIterations + 1 }
  let st2 := if st1.useStrictQueueOrdering then resortStep st1 o else st1
  if st2.queueEdges.isEmpty then newBatchStep si opt st2 o else st2

/-- The body handling a popped edge (BITstar.cpp:370): gate A against the
goal's tree cost, the true edge cost, gate B against the goal's tree cost,
the collision check, the improvement gate, the addition with solution
update and `pruneEdgesTo`; on a gate-A failure, resort if the queue is
unsorted, else `finish()`. -/
def handleEdge {S : Type} (si : SpaceInformation S)
    (opt : OptimizationObjective S) (startState goalState : S)
    (st : PlannerState S) (e : QueueEdge S) (o : IterOracle S) :
    PlannerState S × EdgeOutcome :=
  if isCostBetterThan
      (combine3 opt e.srcCost (edgeCostHeuristic opt e.srcState e.tgtState)
        (costToGoHeuristic opt goalState e.tgtState)) st.goalCost then
    let trueCost := trueEdgeCost si e.srcState e.tgtState
    if isCostBetterThan
        (combine3 opt (costToComeHeuristic opt startState e.srcState) trueCost
          (costToGoHeuristic opt goalState e.tgtState)) st.goalCost then
      -- `checkEdge` (BITstar.cpp:1008) counts the check before performing it
      let st1 := { st with numEdgeCollisionChecks := st.numEdgeCollisionChecks + 1 }
      if si.checkMotion e.srcState e.tgtState then
        if isCostBetterThan (opt.combineCosts e.srcCost trueCost) e.tgtCost then
          let st2 := addEdgeStep st1 e o
          if isCostBetterThan st2.goalCost st2.bestCost then
            let st3 := if st2.hasSolution = false then
                { st2 with approximateSoln := false, approximateDiff := -1 }
              else st2
            let st4 := { st3 with
              hasSolution := true
              bestCost := st3.goalCost
              queueThreshold := st3.goalCost
              stopLoop := st3.stopOnSolnChange }
            ({ st4 with queueEdges := o.queueAfterEdgePrune }, .added true)
          else
            ({ st2 with queueEdges := o.queueAfterEdgePrune }, .added false)
        else (st1, .notImproving)
      else if st1.useFailureTracking then
        ({ st1 with failedChildren := (e.src, e.tgt) :: st1.failedChildren },
          .discardedCollision)
      else (st1, .discardedCollision)
    else if st.useFailureTracking then
      ({ st with failedChildren := (e.src, e.tgt) :: st.failedChildren },
        .discardedHeuristic)
    else (st, .discardedHeuristic)
  else if st.queueUnsorted = false then
    ({ st with queueEdges := ([] : List (QueueEdge S)) }, .dismissedFinish)
  else (resortStep st o, .dismissedResort)

/-- One iteration of the solve loop (BITstar.cpp:343–455): head phase, pop
the front edge, handle it. -/
def iterateOnce {S : Type} (si : SpaceInformation S)
    (opt : OptimizationObjective S) (startState goalState : S)
    (st : PlannerState S) (o : IterOracle S) :
    PlannerState S × EdgeOutcome :=
  let stp := iterationHead si opt st o
  match stp.queueEdges with
  | [] => (stp, .emptyQueue)
  | e :: rest =>
    handleEdge si opt startState goalState { stp with queueEdges := rest } e o

/-- The solve loop's continuation condition (BITstar.cpp:343): the objective
is not satisfied, termination was not requested, the minimum possible cost
still beats the best cost, and no manual stop is pending. -/
def loopCond {S : Type} (opt : OptimizationObjective S) (ptc : Bool)
    (st : PlannerState S) : Bool :=
  !(opt.isSatisfied st.bestCost) && !ptc &&
    isCostBetterThan st.minCost st.bestCost && !st.stopLoop

/-- The solve loop, fuel-bounded, drawing one oracle and one termination
poll per iteration. -/
def solveLoop {S : Type} (si : SpaceInformation S)
    (opt : OptimizationObjective S) (startState goalState : S)
    (oracles : ℕ → IterOracle S) (ptc : ℕ → Bool) :
    ℕ → ℕ → PlannerState S → PlannerState S
  | 0, _, st => st
  | fuel + 1, iter, st =>
    if loopCond opt (ptc iter) st then
      solveLoop si opt startState goalState oracles ptc fuel (iter + 1)
        (iterateOnce si opt startState goalState st (oracles iter)).1
    else st

/-- `BITstar::solve` (BITstar.cpp:333): run the loop (the manual stop flag
starts clear) and return the final state together with the planner status
pair `(hasSolution_, approximateSoln_)` (BITstar.cpp:471). -/
def solve {S : Type} (si : SpaceInformation S)
    (opt : OptimizationObjective S) (startState goalState : S)
    (oracles : ℕ → IterOracle S) (ptc : ℕ → Bool) (fuel : ℕ)
    (st : PlannerState S) : PlannerState S × (Bool × Bool) :=
  let final := solveLoop si opt startState goalState oracles ptc fuel 0
    { st with stopLoop := false }
  (final, (final.hasSolution, final.approximateSoln))

/-! ## Concrete instances used by witnesses and counterexamples -/

/-- The absolute difference of two rationals, written with a comparison so
that concrete instances evaluate by `decide`. -/
def absDiff (a b : ℚ) : ℚ := if a ≤ b then b - a else a - b

/-- A one-dimensional rational state space with the usual distance and a
trivial motion validator. -/
def demoSpace : SpaceInformation ℚ where
  distance a b := absDiff a b
  checkMotion _ _ := true
  spaceMeasure := 1

/-- The path-length objective over `demoSpace`. -/
def demoObjective : OptimizationObjective ℚ := pathLengthObjective demoSpace

/-- A prune oracle reporting no informed measure and an empty sweep. -/
def demoPruneOracle : PruneOracle where
  hasInformedMeasure := false
  informedMeasure := 1
  numPruned := (0, 0)
  samplesDropped := 0
  goalCostAfterPrune := ⊤

/-- An iteration oracle with empty queue refills and an unchanged (still
disconnected) goal. -/
def demoOracle : IterOracle ℚ where
  resortNumPruned := (0, 0)
  resortQueue := []
  resortGoalCost := ⊤
  batchPrune := demoPruneOracle
  batchQueue := []
  batchNearestCalls := 0
  goalCostAfterAdd := ⊤
  queueAfterEdgePrune := []

/-- A freshly set-up planner state: default parameters, infinite costs, no
solution, empty queue. -/
def demoState : PlannerState ℚ where
  useStrictQueueOrdering := false
  rewireFactor := 11 / 10
  samplesPerBatch := 100
  useFailureTracking := false
  useKNearest := false
  usePruning := true
  pruneFraction := 1 / 100
  stopOnSolnChange := false
  bestCost := ⊤
  prunedCost := ⊤
  minCost := ((0 : ℚ) : Cost)
  costSampled := ⊤
  goalCost := ⊤
  queueThreshold := ⊤
  hasSolution := false
  approximateSoln := false
  approximateDiff := -1
  stopLoop := false
  queueEdges := []
  queueUnsorted := false
  failedChildren := []
  sampleDensity := 0
  numIterations := 0
  numBatches := 0
  numPrunings := 0
  numSamples := 0
  numVertices := 0
  numFreeStatesPruned := 0
  numVerticesDisconnected := 0
  numRewirings := 0
  numStateCollisionChecks := 0
  numEdgeCollisionChecks := 0
  numNearestNeighbours := 0

/-- The popped edge of the C1 scenarios: source vertex 0 at state 0 with
tree cost 2, target vertex 1 at state 3, disconnected. -/
def c1Edge : QueueEdge ℚ := ⟨0, 1, 0, 3, ((2 : ℚ) : Cost), ⊤, false⟩

/-- A mid-search state for the C1 counterexample: a solution of cost 5 was
found earlier, but the goal vertex is currently disconnected (tree cost
infinite) after a batch-boundary prune removed its tree ancestor, and
`c1Edge` heads the queue. -/
def c1State : PlannerState ℚ :=
  { demoState with
    hasSolution := true
    bestCost := ((5 : ℚ) : Cost)
    queueThreshold := ((5 : ℚ) : Cost)
    goalCost := ⊤
    queueEdges := [c1Edge] }

/-- A state for the C1 witness: the goal's tree cost is 5 and `c1Edge`
(whose f-through-edge estimate is 9) heads the perfectly sorted queue. -/
def c1FinishState : PlannerState ℚ :=
  { demoState with
    hasSolution := true
    bestCost := ((5 : ℚ) : Cost)
    queueThreshold := ((5 : ℚ) : Cost)
    goalCost := ((5 : ℚ) : Cost)
    queueEdges := [c1Edge] }

/-- An objective whose motion cost is not the state-space distance (the
heuristic is still admissible): used to separate `trueEdgeCost` from the
objective's `motionCost`. -/
def inflatedObjective : OptimizationObjective ℚ where
  motionCost a b := ((absDiff a b + 1 : ℚ) : Cost)
  motionCostHeuristic a b := ((absDiff a b : ℚ) : Cost)
  combineCosts a b := a + b
  infiniteCost := ⊤
  isSatisfied _ := false

/-- A state for the C2 witness: failure tracking is on, the goal's tree
cost is 8, and the queued edge's cached source cost (2) understates the
source's admissible cost-to-come (6), so gate A passes while gate B
fails. -/
def c2State : PlannerState ℚ :=
  { demoState with
    useFailureTracking := true
    hasSolution := true
    bestCost := ((8 : ℚ) : Cost)
    queueThreshold := ((8 : ℚ) : Cost)
    goalCost := ((8 : ℚ) : Cost) }

/-- The popped edge of the C2 witness: source vertex 0 at state 6 with a
stale cached tree cost of 0 (the cost-to-come heuristic of its state is 6),
target vertex 1 at state 3. -/
def c2Edge : QueueEdge ℚ := ⟨0, 1, 6, 3, ((0 : ℚ) : Cost), ⊤, false⟩

/-- A state for the C3 counterexample: pruning enabled, a solution of cost
1 exists, and the last prune happened at cost 2, so the signed fractional
change is negative. -/
def c3State : PlannerState ℚ :=
  { demoState with
    hasSolution := true
    bestCost := ((1 : ℚ) : Cost)
    prunedCost := ((2 : ℚ) : Cost) }

/-! ## Helper lemmas about the loop -/

theorem isCostBetterThan_iff (a b : Cost) : isCostBetterThan a b = true ↔ a < b := by
  simp [isCostBetterThan]

theorem resortStep_frame {S : Type} (st : PlannerState S) (o : IterOracle S) :
    (resortStep st o).bestCost = st.bestCost ∧
    (resortStep st o).queueThreshold = st.queueThreshold ∧
    (resortStep st o).stopLoop = st.stopLoop ∧
    (resortStep st o).approximateSoln = st.approximateSoln ∧
    (resortStep st o).hasSolution = st.hasSolution ∧
    (resortStep st o).stopOnSolnChange = st.stopOnSolnChange := by
  unfold resortStep
  split <;> simp

theorem iterationHead_frame {S : Type} (si : SpaceInformation S)
    (opt : OptimizationObjective S) (st : PlannerState S) (o : IterOracle S) :
    (iterationHead si opt st o).bestCost = st.bestCost ∧
    (iterationHead si opt st o).queueThreshold = st.queueThreshold ∧
    (iterationHead si opt st o).stopLoop = st.stopLoop ∧
    (iterationHead si opt st o).approximateSoln = st.approximateSoln ∧
    (iterationHead si opt st o).hasSolution = st.hasSolution ∧
    (iterationHead si opt st o).stopOnSolnChange = st.stopOnSolnChange := by
  simp only [iterationHead, newBatchStep, pruneStep, lazySampling, resortStep]
  split_ifs <;> simp_all

theorem handleEdge_bestCost {S : Type} (si : SpaceInformation S)
    (opt : OptimizationObjective S) (startState goalState : S)
    (st : PlannerState S) (e : QueueEdge S) (o : IterOracle S) :
    ((handleEdge si opt startState goalState st e o).1.bestCost = st.bestCost ∧
     (handleEdge si opt startState goalState st e o).1.queueThreshold = st.queueThreshold ∧
     (handleEdge si opt startState goalState st e o).1.stopLoop = st.stopLoop) ∨
    (isCostBetterThan (handleEdge si opt startState goalState st e o).1.goalCost
        st.bestCost = true ∧
     (handleEdge si opt startState goalState st e o).1.bestCost =
       (handleEdge si opt startState goalState st e o).1.goalCost ∧
     (handleEdge si opt startState goalState st e o).1.queueThreshold =
       (handleEdge si opt startState goalState st e o).1.bestCost ∧
     (handleEdge si opt startState goalState st e o).1.stopLoop = st.stopOnSolnChange ∧
     (handleEdge si opt startState goalState st e o).1.hasSolution = true) := by
  simp only [handleEdge, addEdgeStep, resortStep]
  split_ifs <;> simp_all

theorem handleEdge_approx {S : Type} (si : SpaceInformation S)
    (opt : OptimizationObjective S) (startState goalState : S)
    (st : PlannerState S) (e : QueueEdge S) (o : IterOracle S)
    (h : st.approximateSoln = false) :
    (handleEdge si opt startState goalState st e o).1.approximateSoln = false := by
  simp only [handleEdge, addEdgeStep, resortStep]
  split_ifs <;> simp_all

theorem handleEdge_gateA {S : Type} (si : SpaceInformation S)
    (opt : OptimizationObjective S) (startState goalState : S)
    (st : PlannerState S) (e : QueueEdge S) (o : IterOracle S) :
    ((handleEdge si opt startState goalState st e o).2.processed = true ↔
      isCostBetterThan
        (combine3 opt e.srcCost (edgeCostHeuristic opt e.srcState e.tgtState)
          (costToGoHeuristic opt goalState e.tgtState)) st.goalCost = true) ∧
    (isCostBetterThan
        (combine3 opt e.srcCost (edgeCostHeuristic opt e.srcState e.tgtState)
          (costToGoHeuristic opt goalState e.tgtState)) st.goalCost = false →
      (st.queueUnsorted = true →
        handleEdge si opt startState goalState st e o =
          (resortStep st o, .dismissedResort)) ∧
      (st.queueUnsorted = false →
        handleEdge si opt startState goalState st e o =
          ({ st with queueEdges := ([] : List (QueueEdge S)) }, .dismissedFinish))) := by
  simp only [handleEdge]
  split_ifs <;> simp_all [EdgeOutcome.processed]

theorem handleEdge_gateB {S : Type} (si : SpaceInformation S)
    (opt : OptimizationObjective S) (startState goalState : S)
    (st : PlannerState S) (e : QueueEdge S) (o : IterOracle S)
    (hA : isCostBetterThan
      (combine3 opt e.srcCost (edgeCostHeuristic opt e.srcState e.tgtState)
        (costToGoHeuristic opt goalState e.tgtState)) st.goalCost = true)
    (hB : isCostBetterThan
      (combine3 opt (costToComeHeuristic opt startState e.srcState)
        (trueEdgeCost si e.srcState e.tgtState)
        (costToGoHeuristic opt goalState e.tgtState)) st.goalCost = false) :
    handleEdge si opt startState goalState st e o =
      (if st.useFailureTracking then
        { st with failedChildren := (e.src, e.tgt) :: st.failedChildren }
      else st, .discardedHeuristic) := by
  simp only [handleEdge, hA, hB]
  simp
  split_ifs <;> rfl

theorem iterateOnce_bestCost {S : Type} (si : SpaceInformation S)
    (opt : OptimizationObjective S) (startState goalState : S)
    (st : PlannerState S) (o : IterOracle S) :
    ((iterateOnce si opt startState goalState st o).1.bestCost = st.bestCost ∧
     (iterateOnce si opt startState goalState st o).1.queueThreshold = st.queueThreshold ∧
     (iterateOnce si opt startState goalState st o).1.stopLoop = st.stopLoop) ∨
    (isCostBetterThan (iterateOnce si opt startState goalState st o).1.goalCost
        st.bestCost = true ∧
     (iterateOnce si opt startState goalState st o).1.bestCost =
       (iterateOnce si opt startState goalState st o).1.goalCost ∧
     (iterateOnce si opt startState goalState st o).1.queueThreshold =
       (iterateOnce si opt startState goalState st o).1.bestCost ∧
     (iterateOnce si opt startState goalState st o).1.stopLoop = st.stopOnSolnChange ∧
     (iterateOnce si opt startState goalState st o).1.hasSolution = true) := by
  obtain ⟨h1, h2, h3, _, _, h6⟩ := iterationHead_frame si opt st o
  cases hq : (iterationHead si opt st o).queueEdges with
  | nil =>
    left
    simp only [iterateOnce, hq]
    exact ⟨h1, h2, h3⟩
  | cons e rest =>
    have hcase := handleEdge_bestCost si opt startState goalState
      { iterationHead si opt st o with queueEdges := rest } e o
    simp only [iterateOnce, hq]
    rcases hcase with ⟨k1, k2, k3⟩ | ⟨k1, k2, k3, k4, k5⟩
    · left
      exact ⟨by rw [k1]; exact h1, by rw [k2]; exact h2, by rw [k3]; exact h3⟩
    · right
      exact ⟨by rw [← h1]; exact k1, k2, k3, by rw [k4]; exact h6, k5⟩

theorem iterateOnce_bestCost_le {S : Type} (si : SpaceInformation S)
    (opt : OptimizationObjective S) (startState goalState : S)
    (st : PlannerState S) (o : IterOracle S) :
    (iterateOnce si opt startState goalState st o).1.bestCost ≤ st.bestCost := by
  rcases iterateOnce_bestCost si opt startState goalState st o with
    ⟨h1, _, _⟩ | ⟨h1, h2, _, _, _⟩
  · exact le_of_eq h1
  · rw [h2]
    exact le_of_lt ((isCostBetterThan_iff _ _).mp h1)

theorem solveLoop_bestCost_le {S : Type} (si : SpaceInformation S)
    (opt : OptimizationObjective S) (startState goalState : S)
    (oracles : ℕ → IterOracle S) (ptc : ℕ → Bool) (fuel iter : ℕ)
    (st : PlannerState S) :
    (solveLoop si opt startState goalState oracles ptc fuel iter st).bestCost ≤
      st.bestCost := by
  induction fuel generalizing iter st with
  | zero => exact le_rfl
  | succ n ih =>
    simp only [solveLoop]
    split
    · exact le_trans (ih (iter + 1) _)
        (iterateOnce_bestCost_le si opt startState goalState st (oracles iter))
    · exact le_rfl

theorem iterateOnce_approx {S : Type} (si : SpaceInformation S)
    (opt : OptimizationObjective S) (startState goalState : S)
    (st : PlannerState S) (o : IterOracle S) (h : st.approximateSoln = false) :
    (iterateOnce si opt startState goalState st o).1.approximateSoln = false := by
  have hhead := (iterationHead_frame si opt st o).2.2.2.1
  cases hq : (iterationHead si opt st o).queueEdges with
  | nil =>
    simp only [iterateOnce, hq]
    rw [hhead]; exact h
  | cons e rest =>
    simp only [iterateOnce, hq]
    exact handleEdge_approx si opt startState goalState _ e o (by rw [← h, ← hhead])

theorem solveLoop_approx {S : Type} (si : SpaceInformation S)
    (opt : OptimizationObjective S) (startState goalState : S)
    (oracles : ℕ → IterOracle S) (ptc : ℕ → Bool) (fuel iter : ℕ)
    (st : PlannerState S) (h : st.approximateSoln = false) :
    (solveLoop si opt startState goalState oracles ptc fuel iter st).approximateSoln =
      false := by
  induction fuel generalizing iter st with
  | zero => exact h
  | succ n ih =>
    simp only [solveLoop]
    split
    · exact ih (iter + 1) _
        (iterateOnce_approx si opt startState goalState st (oracles iter) h)
    · exact h

/-- C4: `bestCost_` is non-increasing across iterations of the solve loop;
within one iteration it is assigned only when the goal vertex's tree cost is
strictly better than the current best cost, in which case it takes that
goal cost, the queue's threshold is set to the new best cost, and the
manual stop flag is set exactly when stop-on-each-solution-improvement is
enabled (a set stop flag makes the loop condition fail, so the loop stops
after that iteration). -/
theorem claim_c4 {S : Type} (si : SpaceInformation S)
    (opt : OptimizationObjective S) (startState goalState : S)
    (oracles : ℕ → IterOracle S) (ptc : ℕ → Bool) :
    (∀ fuel iter st,
      (solveLoop si opt startState goalState oracles ptc fuel iter st).bestCost ≤
        st.bestCost) ∧
    (∀ (st : PlannerState S) (o : IterOracle S),
      ((iterateOnce si opt startState goalState st o).1.bestCost = st.bestCost ∧
       (iterateOnce si opt startState goalState st o).1.queueThreshold =
         st.queueThreshold ∧
       (iterateOnce si opt startState goalState st o).1.stopLoop = st.stopLoop) ∨
      (isCostBetterThan (iterateOnce si opt startState goalState st o).1.goalCost
          st.bestCost = true ∧
       (iterateOnce si opt startState goalState st o).1.bestCost =
         (iterateOnce si opt startState goalState st o).1.goalCost ∧
       (iterateOnce si opt startState goalState st o).1.queueThreshold =
         (iterateOnce si opt startState goalState st o).1.bestCost ∧
       (iterateOnce si opt startState goalState st o).1.stopLoop =
         st.stopOnSolnChange ∧
       (iterateOnce si opt startState goalState st o).1.hasSolution = true)) ∧
    (∀ (p : Bool) (st : PlannerState S), st.stopLoop = true →
      loopCond opt p st = false) := by
  refine ⟨solveLoop_bestCost_le si opt startState goalState oracles ptc,
    iterateOnce_bestCost si opt startState goalState, ?_⟩
  intro p st h
  simp [loopCond, h]

/-- Witness for C4: the concrete per-iteration disjunction and the stop-flag
clause at a state whose stop flag is set. -/
theorem claim_c4_witness :
    ({ demoState with stopLoop := true } : PlannerState ℚ).stopLoop = true ∧
    loopCond demoObjective false { demoState with stopLoop := true } = false := by
  refine ⟨rfl, ?_⟩
  exact (claim_c4 demoSpace demoObjective 0 7 (fun _ => demoOracle)
    (fun _ => false)).2.2 false { demoState with stopLoop := true } rfl

/-- C7: `solve` returns the pair `(hasSolution_, approximateSoln_)`, and on
every execution from a state whose approximate flag is clear (as the
constructor and `clear()` leave it, and as every iteration preserves it)
the approximate component is false. -/
theorem claim_c7 {S : Type} (si : SpaceInformation S)
    (opt : OptimizationObjective S) (startState goalState : S)
    (oracles : ℕ → IterOracle S) (ptc : ℕ → Bool) (fuel : ℕ)
    (st : PlannerState S) (h : st.approximateSoln = false) :
    (solve si opt startState goalState oracles ptc fuel st).2 =
      ((solve si opt startState goalState oracles ptc fuel st).1.hasSolution,
        false) := by
  simp only [solve]
  have : ({ st with stopLoop := false } : PlannerState S).approximateSoln = false := h
  rw [solveLoop_approx si opt startState goalState oracles ptc fuel 0 _ this]

/-- Witness for C7 at the freshly set-up demo state with fuel for three
iterations. -/
theorem claim_c7_witness :
    demoState.approximateSoln = false ∧
    (solve demoSpace demoObjective 0 7 (fun _ => demoOracle) (fun _ => false) 3
        demoState).2 =
      ((solve demoSpace demoObjective 0 7 (fun _ => demoOracle) (fun _ => false) 3
          demoState).1.hasSolution, false) := by
  exact ⟨rfl, claim_c7 demoSpace demoObjective 0 7 (fun _ => demoOracle)
    (fun _ => false) 3 demoState rfl⟩

/-- C5: for every sample count `N > 0`, with `d` the state dimension, `mu`
the informed measure, `eta` the rewire factor and `zeta` the unit-d-ball
measure, the radius-mode connection radius is
`eta * 2 * ((1 + 1/d) * mu / zeta)^(1/d) * (log N / N)^(1/d)` and the
k-nearest-mode neighbour count is `ceil(eta * (e + e/d) * log N)`. -/
theorem claim_c5 (eta mu zeta : ℝ) (d N : ℕ) (_hN : 0 < N) :
    rggR eta d mu zeta N =
      eta * 2 * ((1 + 1 / (d : ℝ)) * mu / zeta) ^ ((1 : ℝ) / (d : ℝ)) *
        (Real.log N / (N : ℝ)) ^ ((1 : ℝ) / (d : ℝ)) ∧
    rggK eta d N = ⌈eta * (Real.exp 1 + Real.exp 1 / (d : ℝ)) * Real.log N⌉₊ := by
  constructor
  · unfold rggR minimumRggR
    rw [mul_div_assoc]
  · rfl

/-- Witness for C5 at `N = 2`, `d = 2`, `eta = 1`, `mu = 1`, `zeta = 3`. -/
theorem claim_c5_witness :
    0 < 2 ∧
    (rggR 1 2 1 3 2 =
        1 * 2 * ((1 + 1 / (2 : ℝ)) * 1 / 3) ^ ((1 : ℝ) / (2 : ℝ)) *
          (Real.log 2 / ((2 : ℕ) : ℝ)) ^ ((1 : ℝ) / (2 : ℝ)) ∧
      rggK 1 2 2 = ⌈1 * (Real.exp 1 + Real.exp 1 / (2 : ℝ)) * Real.log 2⌉₊) := by
  refine ⟨by norm_num, ?_⟩
  have h := claim_c5 1 1 3 2 2 (by norm_num)
  exact_mod_cast h

/-- C6: `addVertex` throws exactly when the vertex has neither a parent nor
the root flag, and in that case the sample index, the vertex index, the
vertex queue and the vertex counter are unchanged; on every connected or
root vertex it succeeds without throwing. -/
theorem claim_c6 (g : VertexContainers) (v : VertexLink)
    (removeFromFree updateExpansionQueue : Bool) :
    (v.hasParent = false ∧ v.isRoot = false →
      addVertex g v removeFromFree updateExpansionQueue =
        (g, some "Vertices must be connected to the graph before adding")) ∧
    (v.hasParent = true ∨ v.isRoot = true →
      (addVertex g v removeFromFree updateExpansionQueue).2 = none ∧
      (addVertex g v removeFromFree updateExpansionQueue).1 =
        { freeStates := if removeFromFree then g.freeStates.erase v.id
                        else g.freeStates
          vertices := g.vertices ++ [v.id]
          queueVertices := if updateExpansionQueue then g.queueVertices ++ [v.id]
                           else g.queueVertices
          numVertices := g.numVertices + 1 }) := by
  constructor
  · intro h
    simp [addVertex, h.1, h.2]
  · intro h
    have hcond : ¬(v.hasParent = false ∧ v.isRoot = false) := by
      rcases h with h | h <;> simp [h]
    simp [addVertex, hcond]

/-- Witness for C6: an unconnected non-root vertex is rejected with the
containers untouched, and a root vertex is accepted. -/
theorem claim_c6_witness :
    (addVertex ⟨[7], [], [], 0⟩ ⟨7, false, false⟩ true true =
      (⟨[7], [], [], 0⟩, some "Vertices must be connected to the graph before adding")) ∧
    (addVertex ⟨[7], [], [], 0⟩ ⟨3, false, true⟩ false true).2 = none := by
  constructor
  · exact (claim_c6 ⟨[7], [], [], 0⟩ ⟨7, false, false⟩ true true).1 ⟨rfl, rfl⟩
  · exact ((claim_c6 ⟨[7], [], [], 0⟩ ⟨3, false, true⟩ false true).2 (Or.inr rfl)).1

/-- C8: `clear()` leaves the eight configuration parameters untouched while
resetting the run-time state: the sampler, objective, start/goal vertices,
both nearest-neighbour indices, the queue, the calculated terms, all costs,
all flags and counters, and the setup flag. -/
theorem claim_c8 (p : PlannerMembers) :
    ((clear p).useStrictQueueOrdering = p.useStrictQueueOrdering ∧
     (clear p).rewireFactor = p.rewireFactor ∧
     (clear p).samplesPerBatch = p.samplesPerBatch ∧
     (clear p).useFailureTracking = p.useFailureTracking ∧
     (clear p).useKNearest = p.useKNearest ∧
     (clear p).usePruning = p.usePruning ∧
     (clear p).pruneFraction = p.pruneFraction ∧
     (clear p).stopOnSolnChange = p.stopOnSolnChange) ∧
    ((clear p).sampler = none ∧ (clear p).opt = none ∧
     (clear p).startVertex = none ∧ (clear p).goalVertex = none ∧
     (clear p).freeStateNN = none ∧ (clear p).vertexNN = none ∧
     (clear p).intQueue = none ∧
     (clear p).sampleDensity = 0 ∧ (clear p).r = 0 ∧
     (clear p).kRgg = 0 ∧ (clear p).k = 0 ∧
     (clear p).bestCost = ⊤ ∧ (clear p).prunedCost = ⊤ ∧
     (clear p).minCost = ((0 : ℚ) : Cost) ∧
     (clear p).costSampled = ((0 : ℚ) : Cost) ∧
     (clear p).hasSolution = false ∧ (clear p).approximateSoln = false ∧
     (clear p).approximateDiff = -1 ∧
     (clear p).numIterations = 0 ∧ (clear p).numBatches = 0 ∧
     (clear p).numPrunings = 0 ∧ (clear p).numSamples = 0 ∧
     (clear p).numVertices = 0 ∧ (clear p).numFreeStatesPruned = 0 ∧
     (clear p).numVerticesDisconnected = 0 ∧ (clear p).numRewirings = 0 ∧
     (clear p).numStateCollisionChecks = 0 ∧
     (clear p).numEdgeCollisionChecks = 0 ∧
     (clear p).numNearestNeighbours = 0 ∧
     (clear p).setupFlag = false) := by
  simp [clear]

/-- C9: when the integrated queue (after the forced resort that strict
queue ordering triggers) is empty, `getNextEdgeInQueue` returns the null
pair and `getNextEdgeValueInQueue` returns the objective's infinite cost;
when it is non-empty they return the front edge's states and the first
component of its sort key. -/
theorem claim_c9 {S : Type} (opt : OptimizationObjective S)
    (useStrictQueueOrdering : Bool)
    (resortFn : List (QueueEntry S) → List (QueueEntry S))
    (q : List (QueueEntry S)) :
    ((if useStrictQueueOrdering then resortFn q else q) = [] →
      getNextEdgeInQueue useStrictQueueOrdering resortFn q = (none, none) ∧
      getNextEdgeValueInQueue opt useStrictQueueOrdering resortFn q =
        opt.infiniteCost) ∧
    (∀ e rest, (if useStrictQueueOrdering then resortFn q else q) = e :: rest →
      getNextEdgeInQueue useStrictQueueOrdering resortFn q =
        (some e.srcState, some e.tgtState) ∧
      getNextEdgeValueInQueue opt useStrictQueueOrdering resortFn q =
        e.sortKey.1) := by
  constructor
  · intro h
    constructor
    · simp only [getNextEdgeInQueue, h]
    · simp only [getNextEdgeValueInQueue, h]
  · intro e rest h
    constructor
    · simp only [getNextEdgeInQueue, h]
    · simp only [getNextEdgeValueInQueue, h]

/-- Witness for C9 on a concrete queue: the empty queue yields the null
pair and infinite cost without strict ordering, and a singleton queue
yields its entry's states and primary key. -/
theorem claim_c9_witness :
    (getNextEdgeInQueue (S := ℚ) false id [] = (none, none) ∧
      getNextEdgeValueInQueue (pathLengthObjective ⟨fun a b => |a - b|, fun _ _ => true, 1⟩)
        false id [] = (pathLengthObjective ⟨fun a b => |a - b|, fun _ _ => true, 1⟩).infiniteCost) ∧
    (getNextEdgeInQueue (S := ℚ) false id [⟨0, 1, (((2 : ℚ) : Cost), ((1 : ℚ) : Cost))⟩] =
        (some 0, some 1) ∧
      getNextEdgeValueInQueue (pathLengthObjective ⟨fun a b => |a - b|, fun _ _ => true, 1⟩)
        false id [⟨0, 1, (((2 : ℚ) : Cost), ((1 : ℚ) : Cost))⟩] = ((2 : ℚ) : Cost)) := by
  constructor
  · exact (claim_c9 (pathLengthObjective ⟨fun a b => |a - b|, fun _ _ => true, 1⟩)
      false id []).1 rfl
  · exact (claim_c9 (pathLengthObjective ⟨fun a b => |a - b|, fun _ _ => true, 1⟩)
      false id [⟨0, 1, (((2 : ℚ) : Cost), ((1 : ℚ) : Cost))⟩]).2
      ⟨0, 1, (((2 : ℚ) : Cost), ((1 : ℚ) : Cost))⟩ [] rfl

/-- C10: the distance function installed in both nearest-neighbour indices
reverses its arguments — on vertices with allocated states it returns the
state-space distance from the second vertex's state to the first's — and it
throws when either vertex's state is unallocated. -/
theorem claim_c10 {S : Type} (dist : S → S → ℚ) (a b : VertexState S) :
    (∀ sa sb, a.state = some sa → b.state = some sb →
      nnDistance dist a b = .ok (dist sb sa) ∧
      freeStateNNDistance dist a b = .ok (dist sb sa) ∧
      vertexNNDistance dist a b = .ok (dist sb sa)) ∧
    ((a.state = none ∨ b.state = none) →
      ∃ msg, nnDistance dist a b = .error msg) := by
  constructor
  · intro sa sb ha hb
    refine ⟨?_, ?_, ?_⟩ <;> simp [nnDistance, freeStateNNDistance, vertexNNDistance, ha, hb]
  · rintro (h | h)
    · exact ⟨"a state is unallocated", by simp [nnDistance, h]⟩
    · cases ha : a.state with
      | none => exact ⟨"a state is unallocated", by simp [nnDistance, ha]⟩
      | some sa => exact ⟨"b state is unallocated", by simp [nnDistance, ha, h]⟩

/-- Witness for C10: on rational states `3` and `5` with the usual distance,
the installed function returns `dist 5 3`, and a missing state throws. -/
theorem claim_c10_witness :
    (nnDistance (fun a b => |a - b|) ⟨some 3⟩ ⟨some (5 : ℚ)⟩ = .ok |5 - 3| ∧
      freeStateNNDistance (fun a b => |a - b|) ⟨some 3⟩ ⟨some (5 : ℚ)⟩ = .ok |5 - 3| ∧
      vertexNNDistance (fun a b => |a - b|) ⟨some 3⟩ ⟨some (5 : ℚ)⟩ = .ok |5 - 3|) ∧
    (∃ msg, nnDistance (fun a b => |a - b|) ⟨none⟩ ⟨some (5 : ℚ)⟩ = .error msg) := by
  constructor
  · exact (claim_c10 (fun a b => |a - b|) ⟨some 3⟩ ⟨some (5 : ℚ)⟩).1 3 5 rfl rfl
  · exact (claim_c10 (fun a b => |a - b|) ⟨none⟩ ⟨some (5 : ℚ)⟩).2 (Or.inl rfl)

/-- C1 (amended): in every iteration of the solve loop, after popping the
best edge `(u, x)`, the edge is processed further (true-cost computation,
collision check, possible addition) if and only if
`combine(g_t(u), c_hat(u,x), h_hat(x))` is strictly better than the goal
vertex's current tree cost `g_t(goal)` — which coincides with the best
solution cost whenever the goal is connected at the up-to-date best cost —
and otherwise the loop resorts when the queue is not fully sorted and
declares the batch exhausted via `finish()` when it is. -/
theorem claim_c1 {S : Type} (si : SpaceInformation S)
    (opt : OptimizationObjective S) (startState goalState : S)
    (st : PlannerState S) (o : IterOracle S) (e : QueueEdge S)
    (rest : List (QueueEdge S))
    (hq : (iterationHead si opt st o).queueEdges = e :: rest) :
    ((iterateOnce si opt startState goalState st o).2.processed = true ↔
      isCostBetterThan
        (combine3 opt e.srcCost (edgeCostHeuristic opt e.srcState e.tgtState)
          (costToGoHeuristic opt goalState e.tgtState))
        (iterationHead si opt st o).goalCost = true) ∧
    (isCostBetterThan
        (combine3 opt e.srcCost (edgeCostHeuristic opt e.srcState e.tgtState)
          (costToGoHeuristic opt goalState e.tgtState))
        (iterationHead si opt st o).goalCost = false →
      ((iterationHead si opt st o).queueUnsorted = true →
        iterateOnce si opt startState goalState st o =
          (resortStep { iterationHead si opt st o with queueEdges := rest } o,
            .dismissedResort)) ∧
      ((iterationHead si opt st o).queueUnsorted = false →
        iterateOnce si opt startState goalState st o =
          ({ iterationHead si opt st o with
              queueEdges := ([] : List (QueueEdge S)) }, .dismissedFinish))) := by
  have hg := handleEdge_gateA si opt startState goalState
    { iterationHead si opt st o with queueEdges := rest } e o
  simpa only [iterateOnce, hq] using hg

/-- Counterexample to C1 as stated: at `c1State` the best solution cost is
5 but the goal vertex's tree cost is infinite, and the popped edge — whose
f-through-edge estimate 9 is not better than the best cost 5 — is
nevertheless processed further (all the way to an addition), because the
code's gate A (BITstar.cpp:372) compares against the goal's tree cost, not
against `bestCost_`. -/
theorem counterexample_c1 :
    (iterateOnce demoSpace demoObjective 0 7 c1State demoOracle).2.processed = true ∧
    isCostBetterThan
      (combine3 demoObjective c1Edge.srcCost
        (edgeCostHeuristic demoObjective c1Edge.srcState c1Edge.tgtState)
        (costToGoHeuristic demoObjective 7 c1Edge.tgtState))
      c1State.bestCost = false := by
  refine ⟨?_, ?_⟩ <;> with_unfolding_all rfl

/-- Witness for C1 at `c1FinishState`: the popped edge's estimate 9 is not
better than the goal cost 5 and the queue is perfectly sorted, so the
iteration clears the queue via `finish()`. -/
theorem claim_c1_witness :
    (iterationHead demoSpace demoObjective c1FinishState demoOracle).queueEdges =
      [c1Edge] ∧
    iterateOnce demoSpace demoObjective 0 7 c1FinishState demoOracle =
      ({ iterationHead demoSpace demoObjective c1FinishState demoOracle with
          queueEdges := ([] : List (QueueEdge ℚ)) }, .dismissedFinish) := by
  refine ⟨rfl, ?_⟩
  exact ((claim_c1 demoSpace demoObjective 0 7 c1FinishState demoOracle c1Edge []
    rfl).2 (by with_unfolding_all rfl)).2 rfl

/-- C2 (amended): the true edge cost used in gate B and when adding the
edge is the state-space distance between the two states — which coincides
with the objective's motion cost for path-length objectives — and an edge
whose `combine(g_hat(u), c_uv, h_hat(v))` is not better than the goal
vertex's current tree cost is discarded, with the target recorded as a
failed child of the source exactly when failure tracking is enabled. -/
theorem claim_c2 {S : Type} (si : SpaceInformation S)
    (opt : OptimizationObjective S) (startState goalState : S) :
    (∀ u v : S,
      trueEdgeCost si u v = ((si.distance u v : ℚ) : Cost) ∧
      trueEdgeCost si u v = (pathLengthObjective si).motionCost u v) ∧
    (∀ (st : PlannerState S) (e : QueueEdge S) (o : IterOracle S),
      isCostBetterThan
        (combine3 opt e.srcCost (edgeCostHeuristic opt e.srcState e.tgtState)
          (costToGoHeuristic opt goalState e.tgtState)) st.goalCost = true →
      isCostBetterThan
        (combine3 opt (costToComeHeuristic opt startState e.srcState)
          (trueEdgeCost si e.srcState e.tgtState)
          (costToGoHeuristic opt goalState e.tgtState)) st.goalCost = false →
      handleEdge si opt startState goalState st e o =
        (if st.useFailureTracking then
          { st with failedChildren := (e.src, e.tgt) :: st.failedChildren }
        else st, .discardedHeuristic)) :=
  ⟨fun _ _ => ⟨rfl, rfl⟩,
   fun st e o hA hB => handleEdge_gateB si opt startState goalState st e o hA hB⟩

/-- Counterexample to C2 as stated: under an objective whose motion cost is
distance plus one, the true edge cost the code computes (BITstar.cpp:1190)
is the plain distance 3, not the objective's motion cost 4. -/
theorem counterexample_c2 :
    trueEdgeCost demoSpace 0 3 = ((3 : ℚ) : Cost) ∧
    inflatedObjective.motionCost 0 3 = ((4 : ℚ) : Cost) ∧
    trueEdgeCost demoSpace 0 3 ≠ inflatedObjective.motionCost 0 3 := by
  refine ⟨by with_unfolding_all rfl, by with_unfolding_all rfl, ?_⟩
  intro h
  rw [show trueEdgeCost demoSpace 0 3 = ((3 : ℚ) : Cost) from by with_unfolding_all rfl,
    show inflatedObjective.motionCost 0 3 = ((4 : ℚ) : Cost) from by with_unfolding_all rfl,
    WithTop.coe_eq_coe] at h
  norm_num at h

/-- Witness for C2: the true edge cost between states 0 and 3 evaluates to
the distance 3, and at `c2State` (failure tracking on) the popped `c2Edge`
passes gate A (estimate 7 against goal cost 8) but fails gate B (admissible
cost 13), so it is discarded and the target is recorded as a failed
child. -/
theorem claim_c2_witness :
    trueEdgeCost demoSpace 0 3 = ((3 : ℚ) : Cost) ∧
    handleEdge demoSpace demoObjective 0 7 c2State c2Edge demoOracle =
      (if c2State.useFailureTracking then
        { c2State with failedChildren := (c2Edge.src, c2Edge.tgt) :: c2State.failedChildren }
      else c2State, .discardedHeuristic) := by
  constructor
  · exact (((claim_c2 demoSpace demoObjective 0 7).1 0 3).1).trans
      (by with_unfolding_all rfl)
  · exact (claim_c2 demoSpace demoObjective 0 7).2 c2State c2Edge demoOracle
      (by with_unfolding_all rfl) (by with_unfolding_all rfl)

/-- C3 (amended): the prune operation performs its sweep (prune samples,
prune the graph via the integrated queue, update the pruned cost to the
best cost) if and only if pruning is enabled, a solution exists, the
absolute value of the fractional change `(bestCost - prunedCost)/prunedCost`
exceeds the prune fraction — a non-finite pruned cost counting as infinite
change — and the sampler's informed measure, when available, is strictly
smaller than the full space measure; otherwise prune leaves all state
unchanged. -/
theorem claim_c3 {S : Type} (si : SpaceInformation S)
    (opt : OptimizationObjective S) (st : PlannerState S) (o : PruneOracle) :
    ((st.usePruning = true ∧ st.hasSolution = true ∧
      (st.pruneFraction : Cost) <
        costAbs (fractionalChange opt st.bestCost st.prunedCost) ∧
      (o.hasInformedMeasure = true → o.informedMeasure < si.spaceMeasure)) →
      pruneStep si opt st o =
        { st with
          numPrunings := st.numPrunings + 1
          numFreeStatesPruned :=
            st.numFreeStatesPruned + o.samplesDropped + o.numPruned.2
          numVerticesDisconnected := st.numVerticesDisconnected + o.numPruned.1
          goalCost := o.goalCostAfterPrune
          prunedCost := st.bestCost }) ∧
    (¬(st.usePruning = true ∧ st.hasSolution = true ∧
      (st.pruneFraction : Cost) <
        costAbs (fractionalChange opt st.bestCost st.prunedCost) ∧
      (o.hasInformedMeasure = true → o.informedMeasure < si.spaceMeasure)) →
      pruneStep si opt st o = st) := by
  constructor
  · rintro ⟨hp, hs, hf, hm⟩
    unfold pruneStep
    rw [if_pos ⟨hp, hs, hf⟩]
    by_cases hI : o.hasInformedMeasure = true
    · rw [if_pos (Or.inl ⟨hI, hm hI⟩)]
    · rw [if_pos (Or.inr (by simpa using hI))]
  · intro h
    unfold pruneStep
    by_cases h1 : st.usePruning = true ∧ st.hasSolution = true ∧
      (st.pruneFraction : Cost) <
        costAbs (fractionalChange opt st.bestCost st.prunedCost)
    · rw [if_pos h1, if_neg ?_]
      rintro (⟨hI, hlt⟩ | hI)
      · exact h ⟨h1.1, h1.2.1, h1.2.2, fun _ => hlt⟩
      · exact h ⟨h1.1, h1.2.1, h1.2.2, fun hc => absurd hc (by simp [hI])⟩
    · rw [if_neg h1]

/-- Counterexample to C3 as stated: at `c3State` the best cost 1 improved
on the pruned cost 2, so the signed fractional change is −1/2 and does not
exceed the prune fraction 1/100, yet the code sweeps (the pruning counter
increments) because it compares the absolute value (BITstar.cpp:878). -/
theorem counterexample_c3 :
    (pruneStep demoSpace demoObjective c3State demoPruneOracle).numPrunings =
      c3State.numPrunings + 1 ∧
    ¬((c3State.pruneFraction : Cost) <
        fractionalChange demoObjective c3State.bestCost c3State.prunedCost) := by
  refine ⟨by with_unfolding_all rfl, ?_⟩
  intro h
  rw [show fractionalChange demoObjective c3State.bestCost c3State.prunedCost =
        ((-(1 / 2) : ℚ) : Cost) from by with_unfolding_all rfl,
    show (c3State.pruneFraction : Cost) = ((1 / 100 : ℚ) : Cost) from rfl,
    WithTop.coe_lt_coe] at h
  norm_num at h

/-- Witness for C3 at `c3State`: every trigger of the amended condition
holds, and the sweep updates the counters and the pruned cost. -/
theorem claim_c3_witness :
    pruneStep demoSpace demoObjective c3State demoPruneOracle =
      { c3State with
        numPrunings := c3State.numPrunings + 1
        numFreeStatesPruned := c3State.numFreeStatesPruned + 0 + 0
        numVerticesDisconnected := c3State.numVerticesDisconnected + 0
        goalCost := ⊤
        prunedCost := c3State.bestCost } := by
  refine (claim_c3 demoSpace demoObjective c3State demoPruneOracle).1
    ⟨rfl, rfl, ?_, fun h => nomatch h⟩
  rw [show costAbs (fractionalChange demoObjective c3State.bestCost c3State.prunedCost) =
        ((1 / 2 : ℚ) : Cost) from by with_unfolding_all rfl]
  refine WithTop.coe_lt_coe.mpr ?_
  show (1 / 100 : ℚ) < 1 / 2
  norm_num

end BITstarProof
